import Mathlib

/-!
Shallow embedding of the legal-case management system (Django models,
signals, Celery tasks, forms and views) and proofs about its alert
pipeline.

Modelling conventions:
* Timestamps (`DateTimeField`, `timezone.now()`) are minutes since an
  arbitrary epoch, as `Nat`.  One day is 1440 minutes.
* Dates (`DateField`, `date.today()`) are day indices, as `Nat`; the
  date belonging to a timestamp `t` is `t / 1440`.
* Django model rows live in lists inside a `DB` record; `objects.create`
  appends, `objects.filter(...).delete()` filters, a row `save` maps
  over the list.
* Choice fields (`estado`, `tipo`) keep their source string codes.
* A nullable e-mail is the empty string when absent (both `None` and
  `""` are falsy in the Python source, so `a or b` behaves identically).
* The Celery mail transport is an oracle `Bool` per attempt: `true`
  means `send_mail` returns, `false` means it raises.
-/

/-- Minutes per day, the unit conversion between timestamps and dates. -/
def minutesPerDay : Nat := 1440

/-- Calendar date (`date.today()`) of a timestamp, as a day index. -/
def dateOf (now : Nat) : Nat := now / minutesPerDay

/-- Row of the `Caso` model (`models_casos.py`).  `fecha_vencimiento` is
kept as an `Option` because the Python `save` logic guards on its
truthiness; `usuario_responsable` is flattened to its primary key and
e-mail, the only parts the verified code reads. -/
structure Caso where
  id : Nat
  tipo : String
  rol : String
  recurrente : String
  estado : String
  materia : String
  fecha_vencimiento : Option Nat
  urgente : Bool
  usuario_responsable_id : Nat
  usuario_responsable_email : String
  deriving Repr, DecidableEq

/-- Row of the `Alerta` model (`models_casos.py`). -/
structure Alerta where
  id : Nat
  caso_id : Nat
  tipo : String
  mensaje : String
  fecha_alerta : Nat
  enviada : Bool
  fecha_envio : Option Nat
  leida : Bool
  enviar_email : Bool
  email_destinatario : String
  fecha_creacion : Nat
  usuario_creador_id : Nat
  deriving Repr, DecidableEq

/-- Row of the `MovimientoCaso` model (`models_casos.py`). -/
structure MovimientoCaso where
  id : Nat
  caso_id : Nat
  fecha_movimiento : Nat
  descripcion : String
  usuario_id : Nat
  importante : Bool
  deriving Repr, DecidableEq

/-- Row of Django's `auth.User`, restricted to what the views read. -/
structure User where
  id : Nat
  is_staff : Bool
  email : String
  deriving Repr, DecidableEq

/-- Database state: the tables touched by the verified operations,
plus fresh-id counters for rows the tasks create. -/
structure DB where
  casos : List Caso
  alertas : List Alerta
  movimientos : List MovimientoCaso
  nextAlertaId : Nat
  nextMovimientoId : Nat
  deriving Repr, DecidableEq

/-- Lookup `Alerta.objects.get(id=...)` / `get_object_or_404(Alerta, pk=...)`. -/
def findAlerta (db : DB) (id : Nat) : Option Alerta :=
  db.alertas.find? (fun a => a.id == id)

/-- Lookup of an alert's `caso` foreign key. -/
def findCaso (db : DB) (id : Nat) : Option Caso :=
  db.casos.find? (fun c => c.id == id)

/-- Persisting one modified `Alerta` row (`alerta.save(...)`): every
stored row with the same primary key is replaced. -/
def updateAlerta (db : DB) (a : Alerta) : DB :=
  { db with alertas := db.alertas.map (fun x => if x.id == a.id then a else x) }

/-- `Caso.save` override (`models_casos.py` lines 134-140): when the due
date is set, recompute `urgente` as days-until-due at most 7; when it is
null the flag is left untouched; then persist. -/
def Caso.save (today : Nat) (c : Caso) : Caso :=
  match c.fecha_vencimiento with
  | some fv => { c with urgente := decide ((fv : Int) - (today : Int) ≤ 7) }
  | none => c

/-- `marcar_urgente_automatico` pre-save signal (`celery_config_utils.py`
lines 43-48): same recomputation as `Caso.save`. -/
def marcar_urgente_automatico (today : Nat) (c : Caso) : Caso :=
  match c.fecha_vencimiento with
  | some fv => { c with urgente := decide ((fv : Int) - (today : Int) ≤ 7) }
  | none => c

/-- `Alerta.marcar_como_enviada` (`models_casos.py` lines 299-303): set
`enviada` and stamp `fecha_envio` together. -/
def Alerta.marcar_como_enviada (now : Nat) (a : Alerta) : Alerta :=
  { a with enviada := true, fecha_envio := some now }

/-- Display value of a `tipo` choice of `Caso` (`TIPO_CASO_CHOICES`). -/
def tipoCasoDisplay (t : String) : String :=
  if t = "AMPARO" then "Recurso de Amparo"
  else if t = "PROTECCION" then "Recurso de Proteccion"
  else if t = "CDE" then "CDE (Contencioso Administrativo)"
  else t

/-- Outcome of a Django view: normal response, `Http404`, or
`PermissionDenied`.  The constructors are distinct so a theorem can say
which of the two error kinds a view raises. -/
inductive ViewResult where
  | success : ViewResult
  | http404 : String → ViewResult
  | permissionDenied : String → ViewResult
  deriving Repr, DecidableEq

/-- Bool test for the `permissionDenied` constructor. -/
def ViewResult.isPermissionDenied : ViewResult → Bool
  | .permissionDenied _ => true
  | _ => false

/-- `marcar_alerta_leida` view (`urls_views.py` lines 394-407): load the
alert or 404; a requester who is neither staff nor the case's
responsible user gets `Http404`; otherwise `leida` is set and saved. -/
def marcar_alerta_leida (db : DB) (user : User) (pk : Nat) : DB × ViewResult :=
  match findAlerta db pk with
  | none => (db, ViewResult.http404 "No Alerta matches the given query.")
  | some alerta =>
    match findCaso db alerta.caso_id with
    | none => (db, ViewResult.http404 "No Caso matches the given query.")
    | some caso =>
      if !user.is_staff && caso.usuario_responsable_id != user.id then
        (db, ViewResult.http404 "No tienes permisos para esta alerta")
      else
        (updateAlerta db { alerta with leida := true }, ViewResult.success)

/-- Deletion predicate of `limpiar_alertas_antiguas`: sent alerts whose
`fecha_envio` is older than the cutoff (a null `fecha_envio` never
matches an SQL `<`). -/
def alertaAntigua (fecha_corte : Nat) (a : Alerta) : Bool :=
  a.enviada && (match a.fecha_envio with
    | some t => decide (t < fecha_corte)
    | none => false)

/-- `limpiar_alertas_antiguas` task (`celery_tasks.py` lines 202-223):
delete alerts with `enviada=True` and `fecha_envio` older than 90 days,
return how many rows went. -/
def limpiar_alertas_antiguas (now : Nat) (db : DB) : DB × Nat :=
  let fecha_corte := now - 90 * minutesPerDay
  let eliminadas := db.alertas.filter (alertaAntigua fecha_corte)
  ({ db with alertas := db.alertas.filter (fun a => !alertaAntigua fecha_corte a) },
    eliminadas.length)

/-- Python's `str.isspace` characters as stripped by `str.strip()`. -/
def pyIsSpace (c : Char) : Bool :=
  c = ' ' || c = '\t' || c = '\n' || c = '\r' || c = '\x0b' || c = '\x0c'

/-- Python's `str.strip()`: drop leading and trailing whitespace. -/
def pyStrip (s : String) : String :=
  String.mk (((s.data.dropWhile pyIsSpace).reverse.dropWhile pyIsSpace).reverse)

/-- Python's `str.upper()`: upper-case every character. -/
def pyUpper (s : String) : String :=
  String.mk (s.data.map Char.toUpper)

/-- `CasoForm.clean_rol` (`forms_casos.py` lines 85-101): strip and
upper-case the submitted docket, then reject it when another stored
case (excluding the instance under edit) already carries the normalised
value.  A missing/empty submitted value skips the check, like Python's
falsiness test. -/
def clean_rol (rol : String) (casos : List Caso) (instance_pk : Option Nat) :
    Except String String :=
  if rol = "" then Except.ok rol
  else
    let r := pyUpper (pyStrip rol)
    let queryset := casos.filter (fun (c : Caso) => c.rol == r)
    let queryset := match instance_pk with
      | some pk => queryset.filter (fun (c : Caso) => c.id != pk)
      | none => queryset
    if queryset.isEmpty then Except.ok r
    else Except.error ("Ya existe un caso con el rol " ++ r)

/-- Result value of one execution of the `enviar_email_alerta` task body
(`celery_tasks.py` lines 60-124).  `retryScheduled c` models
`raise self.retry(countdown=c)`, caught by the Celery runner; every
other constructor is an ordinary return value, so nothing fatal reaches
the scheduler. -/
inductive AttemptResult where
  | alreadySent : AttemptResult
  | notFound : AttemptResult
  | noRecipient : AttemptResult
  | sent : String → AttemptResult
  | retryScheduled : Nat → AttemptResult
  | failed : AttemptResult
  deriving Repr, DecidableEq

/-- One attempt of `enviar_email_alerta` (`celery_tasks.py` lines
60-124).  `sendOk` is the mail transport's behaviour on this attempt,
`retries`/`max_retries` mirror `self.request.retries` and the decorator
argument `max_retries=3`; the retry countdown is the source's 300
seconds (5 minutes).  A broken `caso` foreign key would surface as a
generic exception, hence the retry branch there as well. -/
def enviar_email_alerta (db : DB) (alerta_id : Nat) (retries max_retries : Nat)
    (sendOk : Bool) (now : Nat) : DB × AttemptResult :=
  match findAlerta db alerta_id with
  | none => (db, AttemptResult.notFound)
  | some alerta =>
    if alerta.enviada then (db, AttemptResult.alreadySent)
    else
      match findCaso db alerta.caso_id with
      | none =>
        if retries < max_retries then (db, AttemptResult.retryScheduled 300)
        else (db, AttemptResult.failed)
      | some caso =>
        let email_destinatario :=
          if alerta.email_destinatario ≠ "" then alerta.email_destinatario
          else caso.usuario_responsable_email
        if email_destinatario = "" then (db, AttemptResult.noRecipient)
        else if sendOk then
          (updateAlerta db (alerta.marcar_como_enviada now),
            AttemptResult.sent email_destinatario)
        else if retries < max_retries then (db, AttemptResult.retryScheduled 300)
        else (db, AttemptResult.failed)

/-- Celery's retry loop around `enviar_email_alerta`: run the task body,
and while it raises `self.retry(...)` run it again with `retries`
incremented.  Returns the final database, the final result, the number
of attempts made, and the countdown of every scheduled retry.  `fuel`
bounds the recursion; `max_retries + 1` is always enough because the
body only retries while `retries < max_retries`. -/
def runAttempts (fuel : Nat) (db : DB) (alerta_id : Nat) (retries max_retries : Nat)
    (outcomes : Nat → Bool) (now : Nat) : DB × AttemptResult × Nat × List Nat :=
  match fuel with
  | 0 => (db, AttemptResult.failed, 0, [])
  | fuel + 1 =>
    let r := enviar_email_alerta db alerta_id retries max_retries (outcomes retries) now
    match r.2 with
    | AttemptResult.retryScheduled c =>
      let rest := runAttempts fuel r.1 alerta_id (retries + 1) max_retries outcomes now
      (rest.1, rest.2.1, rest.2.2.1 + 1, c :: rest.2.2.2)
    | _ => (r.1, r.2, 1, [])

/-- Full delivery of one alert: first attempt plus up to `max_retries=3`
retries, as configured by `@shared_task(bind=True, max_retries=3)`. -/
def enviar_email_alerta_task (db : DB) (alerta_id : Nat) (outcomes : Nat → Bool)
    (now : Nat) : DB × AttemptResult × Nat × List Nat :=
  runAttempts 4 db alerta_id 0 3 outcomes now

/-- Duplicate-suppression test of `crear_alertas_vencimiento`
(`celery_tasks.py` lines 172-177): does a `VENCIMIENTO` alert for this
case exist with `fecha_creacion` within the past day? -/
def hasRecentVenc (now : Nat) (cid : Nat) (alertas : List Alerta) : Bool :=
  alertas.any (fun a => a.caso_id == cid && a.tipo == "VENCIMIENTO" &&
    decide (now - minutesPerDay ≤ a.fecha_creacion))

/-- Message text of an automatic due-date alert; the concrete date is
rendered via `toString` since dates are abstract day indices here. -/
def mensajeVencimiento (c : Caso) (dias : Nat) : String :=
  "El caso " ++ c.rol ++ " vence en " ++ toString dias ++ " dias (" ++
    (match c.fecha_vencimiento with
      | some fv => toString fv
      | none => "") ++
    "). Recurrente: " ++ c.recurrente

/-- The alert row `crear_alertas_vencimiento` creates for one case
(`celery_tasks.py` lines 181-191): fire time `now` + 30 minutes,
recipient the responsible user's e-mail, e-mail sending on. -/
def mkAlertaVencimiento (now : Nat) (id : Nat) (dias : Nat) (c : Caso) : Alerta :=
  { id := id
    caso_id := c.id
    tipo := "VENCIMIENTO"
    mensaje := mensajeVencimiento c dias
    fecha_alerta := now + 30
    enviada := false
    fecha_envio := none
    leida := false
    enviar_email := true
    email_destinatario := c.usuario_responsable_email
    fecha_creacion := now
    usuario_creador_id := c.usuario_responsable_id }

/-- Loop body of `crear_alertas_vencimiento` (`celery_tasks.py` lines
171-192): skip the case when a recent `VENCIMIENTO` alert exists,
otherwise create one and bump the counter. -/
def procCasoVencimiento (now : Nat) (acc : DB × Nat) (caso : Caso) : DB × Nat :=
  if hasRecentVenc now caso.id acc.1.alertas then acc
  else
    ({ acc.1 with
        alertas := acc.1.alertas ++ [mkAlertaVencimiento now acc.1.nextAlertaId 7 caso],
        nextAlertaId := acc.1.nextAlertaId + 1 },
      acc.2 + 1)

/-- Queryset filter of `crear_alertas_vencimiento` (`celery_tasks.py`
lines 165-168): in-process cases due exactly `dias_anticipacion = 7`
days from today. -/
def matchesVencimiento (now : Nat) (c : Caso) : Bool :=
  c.estado == "EN_TRAMITACION" && c.fecha_vencimiento == some (dateOf now + 7)

/-- `crear_alertas_vencimiento` task (`celery_tasks.py` lines 154-199):
create due-date alerts for qualifying cases and return the count
created (the source wraps the count in a log string). -/
def crear_alertas_vencimiento (now : Nat) (db : DB) : DB × Nat :=
  (db.casos.filter (matchesVencimiento now)).foldl (procCasoVencimiento now) (db, 0)

/-- `crear_movimiento_inicial` post-save signal (`celery_config_utils.py`
lines 51-60): on creation append an important movement describing the
case (type display plus subject-matter truncated to 100 characters). -/
def crear_movimiento_inicial (now : Nat) (c : Caso) (created : Bool) (db : DB) : DB :=
  if created then
    { db with
        movimientos := db.movimientos ++
          [{ id := db.nextMovimientoId
             caso_id := c.id
             fecha_movimiento := now
             descripcion := "Caso creado: " ++ tipoCasoDisplay c.tipo ++ " - " ++
               c.materia.take 100
             usuario_id := c.usuario_responsable_id
             importante := true }],
        nextMovimientoId := db.nextMovimientoId + 1 }
  else db

/-- `crear_alerta_automatica` post-save signal (`celery_config_utils.py`
lines 63-81): on creation of an in-process case due within 7 days,
create a `VENCIMIENTO` alert firing in one hour; `enviar_email` keeps
its model default `True`. -/
def crear_alerta_automatica (now : Nat) (c : Caso) (created : Bool) (db : DB) : DB :=
  if !created then db
  else
    match c.fecha_vencimiento with
    | none => db
    | some fv =>
      if c.estado == "EN_TRAMITACION" then
        if (fv : Int) - (dateOf now : Int) ≤ 7 then
          { db with
              alertas := db.alertas ++
                [{ id := db.nextAlertaId
                   caso_id := c.id
                   tipo := "VENCIMIENTO"
                   mensaje := "El caso " ++ c.rol ++ " vence en " ++
                     toString ((fv : Int) - (dateOf now : Int)) ++
                     " dias. Fecha de vencimiento: " ++ toString fv
                   fecha_alerta := now + 60
                   enviada := false
                   fecha_envio := none
                   leida := false
                   enviar_email := true
                   email_destinatario := c.usuario_responsable_email
                   fecha_creacion := now
                   usuario_creador_id := c.usuario_responsable_id }],
              nextAlertaId := db.nextAlertaId + 1 }
        else db
      else db

/-- Creation of a case: `Caso.save` recomputes `urgente`, the `pre_save`
signal recomputes it again, the row is inserted, then the two
`post_save` handlers run in registration order. -/
def createCaso (now : Nat) (db : DB) (c0 : Caso) : DB :=
  let c1 := Caso.save (dateOf now) c0
  let c2 := marcar_urgente_automatico (dateOf now) c1
  let db1 := { db with casos := db.casos ++ [c2] }
  let db2 := crear_movimiento_inicial now c2 true db1
  crear_alerta_automatica now c2 true db2

/-- Parameters of one `enviar_email_alerta` invocation inside an
arbitrary interleaving of dispatch and delivery attempts. -/
structure Dispatch where
  alerta_id : Nat
  retries : Nat
  max_retries : Nat
  sendOk : Bool
  now : Nat
  deriving Repr, DecidableEq

/-- Database effect of one dispatch attempt. -/
def dispatchStep (db : DB) (d : Dispatch) : DB :=
  (enviar_email_alerta db d.alerta_id d.retries d.max_retries d.sendOk d.now).1

/-- The stored `enviada` flag of the alert with the given primary key
(`false` when no such alert exists). -/
def sentFlag (db : DB) (id : Nat) : Bool :=
  match findAlerta db id with
  | some a => a.enviada
  | none => false

/-- Number of `enviada : false → true` transitions the alert with the
given primary key undergoes along a sequence of dispatch attempts. -/
def transCount (db : DB) (id : Nat) : List Dispatch → Nat
  | [] => 0
  | d :: ds =>
    (if !sentFlag db id && sentFlag (dispatchStep db d) id then 1 else 0) +
      transCount (dispatchStep db d) id ds

/-- Number of stored `VENCIMIENTO` alerts attached to one case. -/
def countVenc (alertas : List Alerta) (cid : Nat) : Nat :=
  (alertas.filter (fun a => a.caso_id == cid && a.tipo == "VENCIMIENTO")).length

/-- Number of stored movements attached to one case. -/
def countMovimientos (movs : List MovimientoCaso) (cid : Nat) : Nat :=
  (movs.filter (fun m => m.caso_id == cid)).length

/-- Example case row for evaluating the operations on concrete inputs. -/
def casoEj (cid uid : Nat) (email : String) (fv : Option Nat) (est : String) : Caso :=
  { id := cid, tipo := "AMPARO", rol := "C-" ++ toString cid ++ "-2024",
    recurrente := "Recurrente Ejemplo", estado := est,
    materia := "materia de ejemplo", fecha_vencimiento := fv, urgente := false,
    usuario_responsable_id := uid, usuario_responsable_email := email }

/-- Example alert row for evaluating the operations on concrete inputs. -/
def alertaEj (aid cid : Nat) (tipo : String) (env : Bool) (fecha_envio : Option Nat)
    (dest : String) (creada : Nat) : Alerta :=
  { id := aid, caso_id := cid, tipo := tipo, mensaje := "mensaje",
    fecha_alerta := 0, enviada := env, fecha_envio := fecha_envio, leida := false,
    enviar_email := true, email_destinatario := dest, fecha_creacion := creada,
    usuario_creador_id := 1 }

/-- Example database with one case owned by user 1 and one unsent
`VENCIMIENTO` alert without an explicit recipient. -/
def dbEj : DB :=
  { casos := [casoEj 1 1 "ana@example.com" (some 10) "EN_TRAMITACION"],
    alertas := [alertaEj 1 1 "VENCIMIENTO" false none "" 0],
    movimientos := [], nextAlertaId := 2, nextMovimientoId := 1 }

/-- Example database whose case's responsible user has no e-mail. -/
def dbEjSinEmail : DB :=
  { casos := [casoEj 1 1 "" (some 10) "EN_TRAMITACION"],
    alertas := [alertaEj 1 1 "VENCIMIENTO" false none "" 0],
    movimientos := [], nextAlertaId := 2, nextMovimientoId := 1 }

/-- Example database whose single alert has already been sent. -/
def dbEjEnviada : DB :=
  { casos := [casoEj 1 1 "ana@example.com" (some 10) "EN_TRAMITACION"],
    alertas := [alertaEj 1 1 "VENCIMIENTO" true (some 3) "ana@example.com" 0],
    movimientos := [], nextAlertaId := 2, nextMovimientoId := 1 }

theorem clean_rol_error_of_conflict (rol : String) (casos : List Caso) (pk : Option Nat)
    (h : rol ≠ "") (c : Caso) (hcmem : c ∈ casos)
    (hcrol : c.rol = pyUpper (pyStrip rol)) (hcid : ∀ p, pk = some p → c.id ≠ p) :
    clean_rol rol casos pk =
      Except.error ("Ya existe un caso con el rol " ++ pyUpper (pyStrip rol)) := by
  cases pk with
  | none =>
    have hmem : c ∈ casos.filter (fun (x : Caso) => x.rol == pyUpper (pyStrip rol)) :=
      List.mem_filter.2 ⟨hcmem, by simp [hcrol]⟩
    have hnil := List.ne_nil_of_mem hmem
    simp [clean_rol, h, List.isEmpty_iff, hnil]
  | some p =>
    have hmem : c ∈ (casos.filter
        (fun (x : Caso) => x.rol == pyUpper (pyStrip rol))).filter
        (fun (x : Caso) => x.id != p) :=
      List.mem_filter.2 ⟨List.mem_filter.2 ⟨hcmem, by simp [hcrol]⟩,
        by simp [hcid p rfl]⟩
    have hnil := List.ne_nil_of_mem hmem
    simp [clean_rol, h, List.isEmpty_iff, hnil]
    exact ⟨c, hcmem, hcid p rfl, hcrol⟩

theorem clean_rol_ok_of_no_conflict (rol : String) (casos : List Caso) (pk : Option Nat)
    (h : rol ≠ "")
    (hnc : ∀ c ∈ casos, c.rol = pyUpper (pyStrip rol) → ∃ p, pk = some p ∧ c.id = p) :
    clean_rol rol casos pk = Except.ok (pyUpper (pyStrip rol)) := by
  cases pk with
  | none =>
    have hnil : casos.filter (fun (x : Caso) => x.rol == pyUpper (pyStrip rol)) = [] := by
      refine List.filter_eq_nil_iff.2 ?_
      intro x hx
      simp only [beq_iff_eq]
      intro heq
      obtain ⟨p, hp, _⟩ := hnc x hx heq
      cases hp
    simp [clean_rol, h, List.isEmpty_iff, hnil]
  | some p =>
    have hnil : (casos.filter
        (fun (x : Caso) => x.rol == pyUpper (pyStrip rol))).filter
        (fun (x : Caso) => x.id != p) = [] := by
      refine List.filter_eq_nil_iff.2 ?_
      intro x hx
      obtain ⟨hxmem, hxrol⟩ := List.mem_filter.1 hx
      obtain ⟨p', hp', hid⟩ := hnc x hxmem (by simpa using hxrol)
      cases hp'
      simp [hid]
    simp [clean_rol, h, List.isEmpty_iff, hnil]

theorem clean_rol_empty (casos : List Caso) (pk : Option Nat) :
    clean_rol "" casos pk = Except.ok "" := rfl

theorem length_filter_add_not {α : Type} (p : α → Bool) (l : List α) :
    (l.filter p).length + (l.filter (fun a => !p a)).length = l.length := by
  have := List.length_eq_length_filter_add (l := l) p
  omega

/-- C4 (amended): whenever the due date is set, both the `save` override
and the `pre_save` signal store `urgente` as the truth of
days-until-due at most 7, recomputed from the current date; when the
due date is null they leave the row untouched (rather than forcing
`urgente` to false). -/
theorem c4_urgente_recomputed_on_save (c : Caso) (today : Nat) :
    (∀ fv, c.fecha_vencimiento = some fv →
      (Caso.save today c).urgente = decide ((fv : Int) - (today : Int) ≤ 7) ∧
      (marcar_urgente_automatico today c).urgente =
        decide ((fv : Int) - (today : Int) ≤ 7)) ∧
    (c.fecha_vencimiento = none →
      Caso.save today c = c ∧ marcar_urgente_automatico today c = c) := by
  constructor
  · intro fv hfv
    constructor <;> simp [Caso.save, marcar_urgente_automatico, hfv]
  · intro hnone
    constructor <;> simp [Caso.save, marcar_urgente_automatico, hnone]

/-- C4 witness: a case due in 10 days saved on day 3 is stored urgent,
as 10 - 3 ≤ 7. -/
theorem c4_urgente_recomputed_on_save_witness :
    (Caso.save 3 (casoEj 1 1 "ana@example.com" (some 10) "EN_TRAMITACION")).urgente =
      decide ((10 : Int) - (3 : Int) ≤ 7) :=
  ((c4_urgente_recomputed_on_save
    (casoEj 1 1 "ana@example.com" (some 10) "EN_TRAMITACION") 3).1 10 rfl).1

/-- C4 counterexample: the claim `due date null → stored urgente is
false` fails: saving a case whose `urgente` flag is true and whose due
date is null leaves the flag true, because `Caso.save` only recomputes
the flag when a due date is present. -/
theorem c4_null_due_date_counterexample :
    (Caso.save 0
      { casoEj 1 1 "ana@example.com" none "EN_TRAMITACION" with urgente := true }).urgente
      = true := rfl

/-- C7: when the alert names no recipient and the case's responsible
user has no e-mail, the dispatch returns the `Sin email destinatario`
outcome: no delivery is attempted, no retry is scheduled, the database
(hence the alert's `enviada = false`) is unchanged, and the whole task
run consists of that single soft-failing attempt. -/
theorem c7_no_recipient_soft_failure (db : DB) (alerta_id now : Nat)
    (a : Alerta) (caso : Caso)
    (ha : findAlerta db alerta_id = some a) (hsent : a.enviada = false)
    (hdest : a.email_destinatario = "") (hcaso : findCaso db a.caso_id = some caso)
    (hmail : caso.usuario_responsable_email = "") :
    (∀ retries max_retries ok,
      enviar_email_alerta db alerta_id retries max_retries ok now =
        (db, AttemptResult.noRecipient)) ∧
    (∀ outcomes, enviar_email_alerta_task db alerta_id outcomes now =
      (db, AttemptResult.noRecipient, 1, [])) := by
  have key : ∀ retries max_retries ok,
      enviar_email_alerta db alerta_id retries max_retries ok now =
        (db, AttemptResult.noRecipient) := by
    intro retries max_retries ok
    simp [enviar_email_alerta, ha, hcaso, hsent, hdest, hmail]
  refine ⟨key, fun outcomes => ?_⟩
  simp [enviar_email_alerta_task, runAttempts, key]

/-- C7 witness: the example database with a recipient-less alert, run
through the full task, reports `noRecipient` after one attempt. -/
theorem c7_no_recipient_soft_failure_witness :
    enviar_email_alerta_task dbEjSinEmail 1 (fun _ => true) 50 =
      (dbEjSinEmail, AttemptResult.noRecipient, 1, []) :=
  (c7_no_recipient_soft_failure dbEjSinEmail 1 50
    (alertaEj 1 1 "VENCIMIENTO" false none "" 0)
    (casoEj 1 1 "" (some 10) "EN_TRAMITACION")
    (by decide) rfl rfl (by decide) rfl).2 (fun _ => true)

/-- C8 (amended): `marcar_alerta_leida` is permitted only for staff or
the responsible user of the alert's case, in which case it persists
`leida = true`; every other requester is rejected with `Http404` — the
code raises `Http404`, not `PermissionDenied` — and the database (hence
the alert's `leida` flag) is unchanged. -/
theorem c8_marcar_alerta_leida_permission (db : DB) (user : User) (pk : Nat)
    (a : Alerta) (caso : Caso)
    (ha : findAlerta db pk = some a) (hcaso : findCaso db a.caso_id = some caso) :
    ((user.is_staff = true ∨ caso.usuario_responsable_id = user.id) →
      marcar_alerta_leida db user pk =
        (updateAlerta db { a with leida := true }, ViewResult.success)) ∧
    (user.is_staff = false → caso.usuario_responsable_id ≠ user.id →
      marcar_alerta_leida db user pk =
        (db, ViewResult.http404 "No tienes permisos para esta alerta") ∧
      (marcar_alerta_leida db user pk).2.isPermissionDenied = false) := by
  constructor
  · rintro (hstaff | hown)
    · simp [marcar_alerta_leida, ha, hcaso, hstaff]
    · simp [marcar_alerta_leida, ha, hcaso, hown]
  · intro hstaff hne
    have h404 : marcar_alerta_leida db user pk =
        (db, ViewResult.http404 "No tienes permisos para esta alerta") := by
      simp [marcar_alerta_leida, ha, hcaso, hstaff, bne_iff_ne, hne]
    exact ⟨h404, by simp [h404, ViewResult.isPermissionDenied]⟩

/-- C8 witness: the responsible user may mark the alert read, and the
stored row then carries `leida = true`. -/
theorem c8_marcar_alerta_leida_permission_witness :
    marcar_alerta_leida dbEj { id := 1, is_staff := false, email := "ana@example.com" } 1 =
      (updateAlerta dbEj { alertaEj 1 1 "VENCIMIENTO" false none "" 0 with leida := true },
        ViewResult.success) :=
  (c8_marcar_alerta_leida_permission dbEj
    { id := 1, is_staff := false, email := "ana@example.com" } 1
    (alertaEj 1 1 "VENCIMIENTO" false none "" 0)
    (casoEj 1 1 "ana@example.com" (some 10) "EN_TRAMITACION")
    (by decide) (by decide)).1 (Or.inr rfl)

/-- C8 counterexample: a non-staff user who does not own the alert's
case gets `Http404` — not `PermissionDenied` — and the database is
unchanged, refuting the claim that the rejection is surfaced as
`PermissionDenied` distinctly from NotFound. -/
theorem c8_http404_counterexample :
    (marcar_alerta_leida dbEj { id := 2, is_staff := false, email := "otro@example.com" } 1
      = (dbEj, ViewResult.http404 "No tienes permisos para esta alerta")) ∧
    (marcar_alerta_leida dbEj
      { id := 2, is_staff := false, email := "otro@example.com" } 1).2.isPermissionDenied
      = false := by
  constructor <;> decide

/-- C9: the 90-day purge deletes all and only the alerts with
`enviada = true` and `fecha_envio` older than now minus 90 days; unsent
alerts survive regardless of age, the case and movement tables are
untouched, and the returned count is exactly the number of alert rows
removed. -/
theorem c9_limpiar_alertas_antiguas (db : DB) (now : Nat) :
    (limpiar_alertas_antiguas now db).1.casos = db.casos ∧
    (limpiar_alertas_antiguas now db).1.movimientos = db.movimientos ∧
    (∀ a, a ∈ db.alertas → a.enviada = false →
      a ∈ (limpiar_alertas_antiguas now db).1.alertas) ∧
    (∀ a, a ∈ db.alertas → a.enviada = true →
      (∀ t, a.fecha_envio = some t → ¬ t < now - 90 * minutesPerDay) →
      a ∈ (limpiar_alertas_antiguas now db).1.alertas) ∧
    (∀ a, a ∈ (limpiar_alertas_antiguas now db).1.alertas → a ∈ db.alertas) ∧
    (∀ a, a ∈ db.alertas → a.enviada = true → ∀ t, a.fecha_envio = some t →
      t < now - 90 * minutesPerDay → a ∉ (limpiar_alertas_antiguas now db).1.alertas) ∧
    (limpiar_alertas_antiguas now db).2 + (limpiar_alertas_antiguas now db).1.alertas.length
      = db.alertas.length := by
  refine ⟨rfl, rfl, ?_, ?_, ?_, ?_, ?_⟩
  · intro a hmem hsent
    refine List.mem_filter.2 ⟨hmem, ?_⟩
    simp [alertaAntigua, hsent]
  · intro a hmem hsent hnold
    refine List.mem_filter.2 ⟨hmem, ?_⟩
    cases hf : a.fecha_envio with
    | none => simp [alertaAntigua, hsent, hf]
    | some t => simp [alertaAntigua, hsent, hf, hnold t hf]
  · intro a hmem
    exact (List.mem_filter.1 hmem).1
  · intro a hmem hsent t hf hold hkept
    have := (List.mem_filter.1 hkept).2
    simp [alertaAntigua, hsent, hf, hold] at this
  · exact length_filter_add_not _ _

/-- C9 witness: on a database holding one old sent alert, one recent
sent alert and one ancient unsent alert, the purge at time 200000
deletes exactly the old sent one and reports one deletion. -/
theorem c9_limpiar_alertas_antiguas_witness :
    alertaEj 2 1 "VENCIMIENTO" true (some 10) "x@example.com" 5 ∉
      (limpiar_alertas_antiguas 200000
        { casos := [], movimientos := [], nextAlertaId := 5, nextMovimientoId := 1,
          alertas := [alertaEj 2 1 "VENCIMIENTO" true (some 10) "x@example.com" 5,
                      alertaEj 3 1 "VENCIMIENTO" true (some 199999) "x@example.com" 5,
                      alertaEj 4 1 "VENCIMIENTO" false none "x@example.com" 0] }).1.alertas ∧
    (limpiar_alertas_antiguas 200000
        { casos := [], movimientos := [], nextAlertaId := 5, nextMovimientoId := 1,
          alertas := [alertaEj 2 1 "VENCIMIENTO" true (some 10) "x@example.com" 5,
                      alertaEj 3 1 "VENCIMIENTO" true (some 199999) "x@example.com" 5,
                      alertaEj 4 1 "VENCIMIENTO" false none "x@example.com" 0] }).2 + 2 = 3 := by
  constructor
  · exact (c9_limpiar_alertas_antiguas _ 200000).2.2.2.2.2.1
      (alertaEj 2 1 "VENCIMIENTO" true (some 10) "x@example.com" 5)
      (by decide) rfl 10 rfl (by decide)
  · have h := (c9_limpiar_alertas_antiguas
      { casos := [], movimientos := [], nextAlertaId := 5, nextMovimientoId := 1,
        alertas := [alertaEj 2 1 "VENCIMIENTO" true (some 10) "x@example.com" 5,
                    alertaEj 3 1 "VENCIMIENTO" true (some 199999) "x@example.com" 5,
                    alertaEj 4 1 "VENCIMIENTO" false none "x@example.com" 0] }
      200000).2.2.2.2.2.2
    revert h
    decide

/-- C10: `clean_rol` returns the submitted docket stripped of
surrounding whitespace and upper-cased; it rejects the submission
exactly when another stored case — excluding the instance under edit —
already carries the normalised docket; consequently two submissions
with the same normalisation (differing only in letter case or
surrounding whitespace) are treated identically.  The hypothesis that
no stored docket is empty reflects the required, validated `rol`
field. -/
theorem c10_clean_rol_normalisation (rol : String) (casos : List Caso) (pk : Option Nat)
    (hne : ∀ c ∈ casos, c.rol ≠ "") :
    ((∃ c ∈ casos, c.rol = pyUpper (pyStrip rol) ∧ (∀ p, pk = some p → c.id ≠ p)) →
      clean_rol rol casos pk =
        Except.error ("Ya existe un caso con el rol " ++ pyUpper (pyStrip rol))) ∧
    ((∀ c ∈ casos, c.rol = pyUpper (pyStrip rol) → ∃ p, pk = some p ∧ c.id = p) →
      clean_rol rol casos pk = Except.ok (pyUpper (pyStrip rol))) ∧
    (∀ rol2 : String, pyUpper (pyStrip rol2) = pyUpper (pyStrip rol) →
      (∀ c ∈ casos, c.rol = pyUpper (pyStrip rol) → ∃ p, pk = some p ∧ c.id = p) →
      clean_rol rol2 casos pk = clean_rol rol casos pk) := by
  refine ⟨?_, ?_, ?_⟩
  · rintro ⟨c, hcmem, hcrol, hcid⟩
    by_cases hrol : rol = ""
    · exfalso
      apply hne c hcmem
      rw [hrol] at hcrol
      exact hcrol
    · exact clean_rol_error_of_conflict rol casos pk hrol c hcmem hcrol hcid
  · intro hnc
    by_cases hrol : rol = ""
    · rw [hrol]
      exact clean_rol_empty casos pk
    · exact clean_rol_ok_of_no_conflict rol casos pk hrol hnc
  · intro rol2 hnorm hnc
    have hnc2 : ∀ c ∈ casos, c.rol = pyUpper (pyStrip rol2) →
        ∃ p, pk = some p ∧ c.id = p := by
      intro c hc hcr
      refine hnc c hc ?_
      rw [← hnorm]
      exact hcr
    have e1 : clean_rol rol casos pk = Except.ok (pyUpper (pyStrip rol)) := by
      by_cases hrol : rol = ""
      · rw [hrol]
        exact clean_rol_empty casos pk
      · exact clean_rol_ok_of_no_conflict rol casos pk hrol hnc
    have e2 : clean_rol rol2 casos pk = Except.ok (pyUpper (pyStrip rol2)) := by
      by_cases hrol2 : rol2 = ""
      · rw [hrol2]
        exact clean_rol_empty casos pk
      · exact clean_rol_ok_of_no_conflict rol2 casos pk hrol2 hnc2
    rw [e1, e2, hnorm]

/-- C10 witness: against a store holding rol `C-1-2024`, the submission
`" c-1-2024 "` (lower case, surrounding whitespace) is rejected as a
duplicate, and the clean submission `" c-9-2024 "` is accepted and
normalised to `C-9-2024`. -/
theorem c10_clean_rol_normalisation_witness :
    clean_rol " c-1-2024 " [casoEj 1 1 "ana@example.com" (some 10) "EN_TRAMITACION"] none =
      Except.error ("Ya existe un caso con el rol " ++ pyUpper (pyStrip " c-1-2024 ")) ∧
    clean_rol " c-9-2024 " [casoEj 1 1 "ana@example.com" (some 10) "EN_TRAMITACION"] none =
      Except.ok (pyUpper (pyStrip " c-9-2024 ")) := by
  constructor
  · exact (c10_clean_rol_normalisation " c-1-2024 "
      [casoEj 1 1 "ana@example.com" (some 10) "EN_TRAMITACION"] none (by decide)).1
      ⟨casoEj 1 1 "ana@example.com" (some 10) "EN_TRAMITACION", by decide, by decide,
        by intro p hp; cases hp⟩
  · exact (c10_clean_rol_normalisation " c-9-2024 "
      [casoEj 1 1 "ana@example.com" (some 10) "EN_TRAMITACION"] none (by decide)).2.1
      (by intro c hc hcr; rw [List.mem_singleton] at hc; subst hc; revert hcr; decide)

theorem find?_updateAlerta (l : List Alerta) (a' : Alerta) (id : Nat) :
    (l.map (fun x => if x.id == a'.id then a' else x)).find? (fun x => x.id == id)
      = (l.find? (fun x => x.id == id)).map (fun x => if x.id == a'.id then a' else x) := by
  induction l with
  | nil => rfl
  | cons hd tl ih =>
    have hpred : ((if hd.id == a'.id then a' else hd).id == id) = (hd.id == id) := by
      by_cases hida : (hd.id == a'.id) = true
      · have heq : hd.id = a'.id := beq_iff_eq.1 hida
        simp [hida, ← heq]
      · simp [hida]
    simp only [List.map_cons]
    cases hid : (hd.id == id) with
    | false =>
      rw [List.find?_cons_of_neg _ (by rw [hpred, hid]; exact Bool.false_ne_true),
        List.find?_cons_of_neg _ (by rw [hid]; exact Bool.false_ne_true)]
      exact ih
    | true =>
      rw [List.find?_cons_of_pos _ (by rw [hpred, hid]),
        List.find?_cons_of_pos _ (by rw [hid])]
      rfl

theorem sentFlag_updateAlerta (db : DB) (a' : Alerta) (id : Nat)
    (h' : a'.enviada = true) (h : sentFlag db id = true) :
    sentFlag (updateAlerta db a') id = true := by
  unfold sentFlag findAlerta at h ⊢
  unfold updateAlerta
  simp only [find?_updateAlerta]
  cases hf : db.alertas.find? (fun x => x.id == id) with
  | none => rw [hf] at h; simp at h
  | some a =>
    rw [hf] at h
    simp only [Option.map_some']
    by_cases hia : (a.id == a'.id) = true
    · simp [hia, h']
    · simp [hia]
      exact h

theorem dispatchStep_cases (db : DB) (d : Dispatch) :
    dispatchStep db d = db ∨
    ∃ a', a'.enviada = true ∧ dispatchStep db d = updateAlerta db a' := by
  unfold dispatchStep enviar_email_alerta
  cases hf : findAlerta db d.alerta_id with
  | none => exact Or.inl rfl
  | some alerta =>
    by_cases hs : alerta.enviada = true
    · left
      simp [hs]
    · cases hc : findCaso db alerta.caso_id with
      | none =>
        left
        by_cases hr : d.retries < d.max_retries <;> simp [hs, hc, hr]
      | some caso =>
        by_cases he : (if alerta.email_destinatario = "" then caso.usuario_responsable_email
            else alerta.email_destinatario) = ""
        · left
          simp [hs, hc, he]
        · by_cases hok : d.sendOk = true
          · right
            exact ⟨alerta.marcar_como_enviada d.now, rfl, by simp [hs, hc, he, hok]⟩
          · left
            by_cases hr : d.retries < d.max_retries <;> simp [hs, hc, he, hok, hr]

theorem sentFlag_mono (db : DB) (d : Dispatch) (id : Nat)
    (h : sentFlag db id = true) : sentFlag (dispatchStep db d) id = true := by
  rcases dispatchStep_cases db d with heq | ⟨a', ha', heq⟩
  · rw [heq]
    exact h
  · rw [heq]
    exact sentFlag_updateAlerta db a' id ha' h

theorem transCount_eq_zero_of_sent (db : DB) (id : Nat) (ds : List Dispatch)
    (h : sentFlag db id = true) : transCount db id ds = 0 := by
  induction ds generalizing db with
  | nil => rfl
  | cons d ds ih =>
    simp only [transCount, h, Bool.not_true, Bool.false_and, Bool.false_eq_true,
      if_false, Nat.zero_add]
    exact ih _ (sentFlag_mono db d id h)

/-- C2: along any sequence of dispatch attempts, an alert's
`enviada` flag transitions from false to true at most once; an attempt
on an already-sent alert short-circuits to `alreadySent` without
touching the database; and `marcar_como_enviada` — the only state
change any attempt performs — sets `enviada` and `fecha_envio`
together. -/
theorem c2_at_most_once_delivery (db : DB) (id : Nat) (ds : List Dispatch) :
    transCount db id ds ≤ 1 ∧
    (∀ (id' r m now : Nat) (ok : Bool) (a : Alerta),
      findAlerta db id' = some a → a.enviada = true →
      enviar_email_alerta db id' r m ok now = (db, AttemptResult.alreadySent)) ∧
    (∀ (a : Alerta) (now : Nat), (a.marcar_como_enviada now).enviada = true ∧
      (a.marcar_como_enviada now).fecha_envio = some now) := by
  refine ⟨?_, ?_, fun a now => ⟨rfl, rfl⟩⟩
  · induction ds generalizing db with
    | nil => exact Nat.zero_le 1
    | cons d ds ih =>
      by_cases h : sentFlag db id = true
      · rw [transCount_eq_zero_of_sent db id (d :: ds) h]
        exact Nat.zero_le 1
      · rw [Bool.not_eq_true] at h
        by_cases h' : sentFlag (dispatchStep db d) id = true
        · have h0 := transCount_eq_zero_of_sent _ id ds h'
          simp [transCount, h, h', h0]
        · rw [Bool.not_eq_true] at h'
          have hrest := ih (dispatchStep db d)
          simp only [transCount, h, h', Bool.not_false, Bool.and_false,
            Bool.false_eq_true, if_false, Nat.zero_add]
          exact hrest
  · intro id' r m now ok a ha hs
    simp [enviar_email_alerta, ha, hs]

/-- C2 witness: an attempt on the example database's already-sent alert
returns `alreadySent` and leaves the database unchanged. -/
theorem c2_at_most_once_delivery_witness :
    enviar_email_alerta dbEjEnviada 1 0 3 true 50 =
      (dbEjEnviada, AttemptResult.alreadySent) :=
  (c2_at_most_once_delivery dbEjEnviada 1 []).2.1 1 0 3 50 true
    (alertaEj 1 1 "VENCIMIENTO" true (some 3) "ana@example.com" 0) (by decide) rfl

/-- C3: when the mail transport fails on every attempt, the task makes
exactly 4 attempts — the first plus 3 retries, each retry scheduled
with the fixed 300-second (5-minute) countdown — then stops with the
returned (not raised) `failed` outcome, leaving the database and hence
the alert's `enviada = false` unchanged. -/
theorem c3_retry_bound (db : DB) (alerta_id now : Nat) (a : Alerta) (caso : Caso)
    (ha : findAlerta db alerta_id = some a) (hsent : a.enviada = false)
    (hcaso : findCaso db a.caso_id = some caso)
    (hdest : ¬ (if a.email_destinatario = "" then caso.usuario_responsable_email
        else a.email_destinatario) = "") :
    enviar_email_alerta_task db alerta_id (fun _ => false) now =
      (db, AttemptResult.failed, 4, [300, 300, 300]) ∧ 300 = 5 * 60 := by
  have step : ∀ r m : Nat, enviar_email_alerta db alerta_id r m false now =
      if r < m then (db, AttemptResult.retryScheduled 300)
      else (db, AttemptResult.failed) := by
    intro r m
    by_cases hr : r < m <;> simp [enviar_email_alerta, ha, hsent, hcaso, hdest, hr]
  refine ⟨?_, rfl⟩
  have e0 := step 0 3
  have e1 := step 1 3
  have e2 := step 2 3
  have e3 := step 3 3
  norm_num at e0 e1 e2 e3
  simp [enviar_email_alerta_task, runAttempts, e0, e1, e2, e3]

/-- C3 witness: the example alert with an always-failing transport is
attempted 4 times with three 5-minute retries and ends unsent. -/
theorem c3_retry_bound_witness :
    enviar_email_alerta_task dbEj 1 (fun _ => false) 50 =
      (dbEj, AttemptResult.failed, 4, [300, 300, 300]) :=
  (c3_retry_bound dbEj 1 50 (alertaEj 1 1 "VENCIMIENTO" false none "" 0)
    (casoEj 1 1 "ana@example.com" (some 10) "EN_TRAMITACION")
    (by decide) rfl (by decide) (by decide)).1

theorem hasRecentVenc_append (now cid : Nat) (l1 l2 : List Alerta) :
    hasRecentVenc now cid (l1 ++ l2) =
      (hasRecentVenc now cid l1 || hasRecentVenc now cid l2) := by
  simp [hasRecentVenc, List.any_append]

theorem countVenc_append (l1 l2 : List Alerta) (cid : Nat) :
    countVenc (l1 ++ l2) cid = countVenc l1 cid + countVenc l2 cid := by
  simp [countVenc, List.filter_append]

theorem length_filter_and_le {α : Type} (l : List α) (p q : α → Bool) :
    (l.filter (fun a => p a && q a)).length ≤ (l.filter p).length := by
  induction l with
  | nil => exact Nat.le_refl 0
  | cons a l ih =>
    by_cases hp : p a = true
    · by_cases hq : q a = true
      · simp only [List.filter_cons, hp, hq, Bool.and_self, if_true, List.length_cons]
        exact Nat.succ_le_succ ih
      · rw [Bool.not_eq_true] at hq
        simp only [List.filter_cons, hp, hq, Bool.and_false, Bool.false_eq_true, if_false,
          if_true, List.length_cons]
        exact Nat.le_succ_of_le ih
    · rw [Bool.not_eq_true] at hp
      simp only [List.filter_cons, hp, Bool.false_and, Bool.false_eq_true, if_false]
      exact ih

theorem countVenc_le_filter_length (l : List Alerta) (cid : Nat) :
    countVenc l cid ≤ (l.filter (fun a => a.caso_id == cid)).length :=
  length_filter_and_le l _ _

theorem pairwise_id_unique {L : List Caso} (h : L.Pairwise (fun x y => x.id ≠ y.id))
    {c c' : Caso} (hc : c ∈ L) (hc' : c' ∈ L) (heq : c.id = c'.id) : c = c' := by
  induction L with
  | nil => cases hc
  | cons hd tl ih =>
    obtain ⟨hhd, htl⟩ := List.pairwise_cons.1 h
    rcases List.mem_cons.1 hc with rfl | hcm
    · rcases List.mem_cons.1 hc' with rfl | hcm'
      · rfl
      · exact absurd heq (hhd c' hcm')
    · rcases List.mem_cons.1 hc' with rfl | hcm'
      · exact absurd heq.symm (hhd c hcm)
      · exact ih htl hcm hcm'

theorem crearAlertas_fold (now : Nat) (L : List Caso) :
    ∀ (db : DB) (k : Nat), L.Pairwise (fun x y => x.id ≠ y.id) →
    ∃ newOnes : List Alerta,
      (L.foldl (procCasoVencimiento now) (db, k)).1.alertas = db.alertas ++ newOnes ∧
      (L.foldl (procCasoVencimiento now) (db, k)).1.casos = db.casos ∧
      (L.foldl (procCasoVencimiento now) (db, k)).1.movimientos = db.movimientos ∧
      (L.foldl (procCasoVencimiento now) (db, k)).2 = k + newOnes.length ∧
      (∀ a ∈ newOnes, ∃ c, c ∈ L ∧ a.caso_id = c.id ∧ a.tipo = "VENCIMIENTO" ∧
        a.fecha_creacion = now ∧ a.fecha_alerta = now + 30 ∧
        a.email_destinatario = c.usuario_responsable_email ∧
        a.enviar_email = true ∧ a.enviada = false) ∧
      (∀ c ∈ L, hasRecentVenc now c.id db.alertas = false →
        (newOnes.filter (fun a => a.caso_id == c.id)).length = 1) ∧
      (∀ cid, hasRecentVenc now cid db.alertas = true →
        (newOnes.filter (fun a => a.caso_id == cid)).length = 0) ∧
      (∀ cid, (∀ c ∈ L, c.id ≠ cid) →
        (newOnes.filter (fun a => a.caso_id == cid)).length = 0) ∧
      ((∀ c ∈ L, hasRecentVenc now c.id db.alertas = false) →
        newOnes.length = L.length) := by
  induction L with
  | nil =>
    intro db k _
    exact ⟨[], by simp, rfl, rfl, by simp, by simp, by simp, by simp, by simp, by simp⟩
  | cons c L ih =>
    intro db k hpw
    obtain ⟨hheadne, hpwtail⟩ := List.pairwise_cons.1 hpw
    by_cases hrec : hasRecentVenc now c.id db.alertas = true
    · have hstep : procCasoVencimiento now (db, k) c = (db, k) := by
        simp [procCasoVencimiento, hrec]
      rw [List.foldl_cons, hstep]
      obtain ⟨newOnes, h1, h2, h3, h4, h5, h6, h7, h8, h9⟩ := ih db k hpwtail
      refine ⟨newOnes, h1, h2, h3, h4, ?_, ?_, h7, ?_, ?_⟩
      · intro a ha
        obtain ⟨c', hc', rest⟩ := h5 a ha
        exact ⟨c', List.mem_cons_of_mem _ hc', rest⟩
      · intro c' hc' hc'rec
        rcases List.mem_cons.1 hc' with rfl | hmem
        · rw [hrec] at hc'rec
          cases hc'rec
        · exact h6 c' hmem hc'rec
      · intro cid hall
        exact h8 cid (fun c' h' => hall c' (List.mem_cons_of_mem _ h'))
      · intro hallrec
        have := hallrec c (List.mem_cons_self c L)
        rw [hrec] at this
        cases this
    · rw [Bool.not_eq_true] at hrec
      have hstep : procCasoVencimiento now (db, k) c =
          ({ db with
              alertas := db.alertas ++ [mkAlertaVencimiento now db.nextAlertaId 7 c],
              nextAlertaId := db.nextAlertaId + 1 }, k + 1) := by
        simp [procCasoVencimiento, hrec]
      rw [List.foldl_cons, hstep]
      obtain ⟨newOnes, h1, h2, h3, h4, h5, h6, h7, h8, h9⟩ :=
        ih { db with
              alertas := db.alertas ++ [mkAlertaVencimiento now db.nextAlertaId 7 c],
              nextAlertaId := db.nextAlertaId + 1 } (k + 1) hpwtail
      have hAcaso : (mkAlertaVencimiento now db.nextAlertaId 7 c).caso_id = c.id := rfl
      have hrecEq : ∀ cid, cid ≠ c.id →
          hasRecentVenc now cid
            (db.alertas ++ [mkAlertaVencimiento now db.nextAlertaId 7 c]) =
          hasRecentVenc now cid db.alertas := by
        intro cid hne
        rw [hasRecentVenc_append]
        have : hasRecentVenc now cid [mkAlertaVencimiento now db.nextAlertaId 7 c] = false := by
          simp [hasRecentVenc, mkAlertaVencimiento]
          intro h'
          exact absurd h'.symm hne
        rw [this, Bool.or_false]
      refine ⟨mkAlertaVencimiento now db.nextAlertaId 7 c :: newOnes, ?_, ?_, ?_, ?_, ?_, ?_,
        ?_, ?_, ?_⟩
      · rw [h1]
        simp
      · rw [h2]
      · rw [h3]
      · rw [h4, List.length_cons]
        omega
      · intro a ha
        rcases List.mem_cons.1 ha with rfl | hmem
        · exact ⟨c, List.mem_cons_self c L, rfl, rfl, rfl, rfl, rfl, rfl, rfl⟩
        · obtain ⟨c', hc', rest⟩ := h5 a hmem
          exact ⟨c', List.mem_cons_of_mem _ hc', rest⟩
      · intro c' hc' hc'rec
        rcases List.mem_cons.1 hc' with rfl | hmem
        · have hz : (newOnes.filter (fun a => a.caso_id == c'.id)).length = 0 := by
            refine h8 c'.id ?_
            intro c'' hc'' heq
            exact hheadne c'' hc'' heq.symm
          simp only [List.filter_cons, hAcaso, beq_self_eq_true, if_true, List.length_cons, hz]
        · have hne : c.id ≠ c'.id := hheadne c' hmem
          have hstepf : ((mkAlertaVencimiento now db.nextAlertaId 7 c).caso_id == c'.id)
              = false := by
            rw [hAcaso]
            exact beq_eq_false_iff_ne.2 hne
          rw [List.filter_cons]
          rw [hstepf]
          simp only [Bool.false_eq_true, if_false]
          refine h6 c' hmem ?_
          rw [hrecEq c'.id (fun h => hne h.symm)]
          exact hc'rec
      · intro cid hcidrec
        have hne : cid ≠ c.id := by
          intro heq
          rw [heq, hrec] at hcidrec
          cases hcidrec
        have hstepf : ((mkAlertaVencimiento now db.nextAlertaId 7 c).caso_id == cid)
            = false := by
          rw [hAcaso]
          exact beq_eq_false_iff_ne.2 (fun h => hne h.symm)
        rw [List.filter_cons, hstepf]
        simp only [Bool.false_eq_true, if_false]
        refine h7 cid ?_
        rw [hasRecentVenc_append, hcidrec, Bool.true_or]
      · intro cid hall
        have hne : c.id ≠ cid := hall c (List.mem_cons_self c L)
        have hstepf : ((mkAlertaVencimiento now db.nextAlertaId 7 c).caso_id == cid)
            = false := by
          rw [hAcaso]
          exact beq_eq_false_iff_ne.2 hne
        rw [List.filter_cons, hstepf]
        simp only [Bool.false_eq_true, if_false]
        exact h8 cid (fun c' h' => hall c' (List.mem_cons_of_mem _ h'))
      · intro hallrec
        rw [List.length_cons, List.length_cons]
        have : newOnes.length = L.length := by
          refine h9 ?_
          intro c' hc'
          rw [hrecEq c'.id (fun h => (hheadne c' hc') h.symm)]
          exact hallrec c' (List.mem_cons_of_mem _ hc')
        omega

/-- C1: running `crear_alertas_vencimiento` twice, the second run within
24 hours of the first, creates exactly one `VENCIMIENTO` alert in total
for a case that qualified at the first run and had no recent
`VENCIMIENTO` alert then: the second run adds zero duplicates, because
the alert created by the first run still falls inside the 24-hour
suppression window. -/
theorem c1_crear_alertas_vencimiento_idempotente (db : DB) (c : Caso) (t1 t2 : Nat)
    (hids : db.casos.Pairwise (fun x y => x.id ≠ y.id))
    (hc : c ∈ db.casos)
    (hestado : c.estado = "EN_TRAMITACION")
    (hfv : c.fecha_vencimiento = some (dateOf t1 + 7))
    (hnorecent : hasRecentVenc t1 c.id db.alertas = false)
    (h12 : t1 ≤ t2) (h24 : t2 ≤ t1 + minutesPerDay) :
    countVenc
        (crear_alertas_vencimiento t2 (crear_alertas_vencimiento t1 db).1).1.alertas c.id
      = countVenc db.alertas c.id + 1 := by
  simp only [crear_alertas_vencimiento]
  set R1 := (db.casos.filter (matchesVencimiento t1)).foldl (procCasoVencimiento t1) (db, 0)
    with hR1
  have hmatch1 : matchesVencimiento t1 c = true := by
    simp [matchesVencimiento, hestado, hfv]
  have hc1 : c ∈ db.casos.filter (matchesVencimiento t1) :=
    List.mem_filter.2 ⟨hc, hmatch1⟩
  have hpw1 : (db.casos.filter (matchesVencimiento t1)).Pairwise (fun x y => x.id ≠ y.id) :=
    hids.sublist (List.filter_sublist _)
  obtain ⟨n1, e1a, e1c, e1m, e1k, e1all, e1one, e1zero, e1nid, e1len⟩ :=
    crearAlertas_fold t1 (db.casos.filter (matchesVencimiento t1)) db 0 hpw1
  rw [← hR1] at e1a e1c
  have hcount1 : (n1.filter (fun a => a.caso_id == c.id)).length = 1 :=
    e1one c hc1 hnorecent
  have hx : ∃ a, a ∈ n1 ∧ (a.caso_id == c.id) = true := by
    rcases hn : n1.filter (fun a => a.caso_id == c.id) with _ | ⟨a, rest⟩
    · rw [hn] at hcount1
      cases hcount1
    · have hmemf : a ∈ n1.filter (fun a => a.caso_id == c.id) := by
        rw [hn]
        exact List.mem_cons_self _ _
      exact ⟨a, List.mem_filter.1 hmemf⟩
  obtain ⟨astar, hamem, haid⟩ := hx
  obtain ⟨c', hc'm, hacaso, hatipo, hacre, -, -, -, -⟩ := e1all astar hamem
  have hrec2 : hasRecentVenc t2 c.id R1.1.alertas = true := by
    rw [e1a, hasRecentVenc_append]
    have hn1 : hasRecentVenc t2 c.id n1 = true := by
      refine List.any_eq_true.2 ⟨astar, hamem, ?_⟩
      simp only [haid, hatipo, hacre, beq_self_eq_true, Bool.true_and, Bool.and_true,
        decide_eq_true_eq]
      have : minutesPerDay = 1440 := rfl
      omega
    rw [hn1, Bool.or_true]
  have hcv1 : countVenc n1 c.id = 1 := by
    have hfc : n1.filter (fun a => a.caso_id == c.id && a.tipo == "VENCIMIENTO")
        = n1.filter (fun a => a.caso_id == c.id) := by
      apply List.filter_congr
      intro a ha
      obtain ⟨c'', -, -, htipo'', -, -, -, -, -⟩ := e1all a ha
      rw [htipo'']
      simp
    unfold countVenc
    rw [hfc]
    exact hcount1
  have hpw2 : (R1.1.casos.filter (matchesVencimiento t2)).Pairwise
      (fun x y => x.id ≠ y.id) := by
    rw [e1c]
    exact hids.sublist (List.filter_sublist _)
  obtain ⟨n2, e2a, e2c, e2m, e2k, e2all, e2one, e2zero, e2nid, e2len⟩ :=
    crearAlertas_fold t2 (R1.1.casos.filter (matchesVencimiento t2)) R1.1 0 hpw2
  have hzero2 : (n2.filter (fun a => a.caso_id == c.id)).length = 0 := e2zero c.id hrec2
  have hcv2 : countVenc n2 c.id = 0 := by
    have h := countVenc_le_filter_length n2 c.id
    rw [hzero2] at h
    exact Nat.le_zero.1 h
  rw [e2a, countVenc_append, e1a, countVenc_append, hcv1, hcv2]

/-- C1 witness: one qualifying case, empty alert table; a run at minute
10000 followed by a run at minute 10500 leaves exactly one
`VENCIMIENTO` alert for the case. -/
theorem c1_crear_alertas_vencimiento_idempotente_witness :
    countVenc
      (crear_alertas_vencimiento 10500
        (crear_alertas_vencimiento 10000
          { casos := [casoEj 1 1 "ana@example.com" (some 13) "EN_TRAMITACION"],
            alertas := [], movimientos := [], nextAlertaId := 1,
            nextMovimientoId := 1 }).1).1.alertas 1
      = countVenc ([] : List Alerta) 1 + 1 :=
  c1_crear_alertas_vencimiento_idempotente
    { casos := [casoEj 1 1 "ana@example.com" (some 13) "EN_TRAMITACION"],
      alertas := [], movimientos := [], nextAlertaId := 1, nextMovimientoId := 1 }
    (casoEj 1 1 "ana@example.com" (some 13) "EN_TRAMITACION") 10000 10500
    (by simp) (List.mem_singleton.2 rfl) rfl rfl rfl (by omega) (by norm_num [minutesPerDay])

/-- C5: a run of `crear_alertas_vencimiento` on a database with distinct
case ids and no `VENCIMIENTO` alert inside the 24-hour suppression
window creates a new `VENCIMIENTO` alert exactly for the in-process
cases due exactly 7 days from today — in particular none for a case
whose days-until-due exceeds 7 — and every created alert fires between
30 and 60 minutes from now (the code uses exactly 30), defaults its
recipient to the case's responsible user's e-mail, and has
`enviar_email = true`; the returned value is the count created. -/
theorem c5_crear_alertas_vencimiento_correct (db : DB) (now : Nat)
    (hids : db.casos.Pairwise (fun x y => x.id ≠ y.id))
    (hnorecent : ∀ cid, hasRecentVenc now cid db.alertas = false) :
    ∃ newOnes : List Alerta,
      (crear_alertas_vencimiento now db).1.alertas = db.alertas ++ newOnes ∧
      (crear_alertas_vencimiento now db).2 = newOnes.length ∧
      (crear_alertas_vencimiento now db).2 =
        (db.casos.filter (matchesVencimiento now)).length ∧
      (∀ c ∈ db.casos,
        ((∃ a ∈ newOnes, a.caso_id = c.id) ↔
          (c.estado = "EN_TRAMITACION" ∧ c.fecha_vencimiento = some (dateOf now + 7)))) ∧
      (∀ a ∈ newOnes, a.tipo = "VENCIMIENTO" ∧ a.fecha_creacion = now ∧
        now + 30 ≤ a.fecha_alerta ∧ a.fecha_alerta ≤ now + 60 ∧
        a.enviar_email = true ∧ a.enviada = false ∧
        ∃ c ∈ db.casos, a.caso_id = c.id ∧
          a.email_destinatario = c.usuario_responsable_email) := by
  simp only [crear_alertas_vencimiento]
  have hpw : (db.casos.filter (matchesVencimiento now)).Pairwise
      (fun x y => x.id ≠ y.id) :=
    hids.sublist (List.filter_sublist _)
  obtain ⟨n, ea, ec, em, ek, eall, eone, ezero, enid, elen⟩ :=
    crearAlertas_fold now (db.casos.filter (matchesVencimiento now)) db 0 hpw
  refine ⟨n, ea, ?_, ?_, ?_, ?_⟩
  · rw [ek]
    exact Nat.zero_add _
  · rw [ek, elen (fun c _ => hnorecent c.id)]
    exact Nat.zero_add _
  · intro c hcm
    constructor
    · rintro ⟨a, ham, haid⟩
      obtain ⟨c', hc'm, haid', -, -, -, -, -, -⟩ := eall a ham
      have hcid : c'.id = c.id := by rw [← haid', haid]
      have hc'in : c' ∈ db.casos := (List.mem_filter.1 hc'm).1
      have hcc : c' = c := pairwise_id_unique hids hc'in hcm hcid
      subst hcc
      have hmatch := (List.mem_filter.1 hc'm).2
      simpa [matchesVencimiento] using hmatch
    · rintro ⟨hest, hfv⟩
      have hcf : c ∈ db.casos.filter (matchesVencimiento now) :=
        List.mem_filter.2 ⟨hcm, by simp [matchesVencimiento, hest, hfv]⟩
      have h1 := eone c hcf (hnorecent c.id)
      rcases hn : n.filter (fun a => a.caso_id == c.id) with _ | ⟨a, rest⟩
      · rw [hn] at h1
        cases h1
      · have hmemf : a ∈ n.filter (fun a => a.caso_id == c.id) := by
          rw [hn]
          exact List.mem_cons_self _ _
        obtain ⟨ham, haid⟩ := List.mem_filter.1 hmemf
        exact ⟨a, ham, beq_iff_eq.1 haid⟩
  · intro a ham
    obtain ⟨c', hc'm, haid', htipo, hacre, hfa, hemail, henv, henviada⟩ := eall a ham
    refine ⟨htipo, hacre, ?_, ?_, henv, henviada, c', (List.mem_filter.1 hc'm).1, haid',
      hemail⟩
    · rw [hfa]
    · rw [hfa]
      omega

/-- C5 witness: with one case due exactly 7 days out and one due 10
days out, a run at minute 10000 (day 6, so due day 13 qualifies and due
day 16 does not) reports exactly one alert created. -/
theorem c5_crear_alertas_vencimiento_correct_witness :
    (crear_alertas_vencimiento 10000
      { casos := [casoEj 1 1 "ana@example.com" (some 13) "EN_TRAMITACION",
                  casoEj 2 1 "ana@example.com" (some 16) "EN_TRAMITACION"],
        alertas := [], movimientos := [], nextAlertaId := 1,
        nextMovimientoId := 1 }).2 = 1 := by
  obtain ⟨n, -, -, hcount, -, -⟩ :=
    c5_crear_alertas_vencimiento_correct
      { casos := [casoEj 1 1 "ana@example.com" (some 13) "EN_TRAMITACION",
                  casoEj 2 1 "ana@example.com" (some 16) "EN_TRAMITACION"],
        alertas := [], movimientos := [], nextAlertaId := 1, nextMovimientoId := 1 }
      10000 (by simp [casoEj]) (fun _ => rfl)
  rw [hcount]
  decide

theorem Caso.save_eq_update (t : Nat) (c : Caso) :
    ∃ u, Caso.save t c = { c with urgente := u } := by
  obtain ⟨cid, ctipo, crol, crec, cest, cmat, cfv, curg, cuid, cuem⟩ := c
  cases cfv with
  | none => exact ⟨curg, rfl⟩
  | some fv => exact ⟨decide ((fv : Int) - (t : Int) ≤ 7), rfl⟩

theorem marcar_urgente_eq_update (t : Nat) (c : Caso) :
    ∃ u, marcar_urgente_automatico t c = { c with urgente := u } := by
  obtain ⟨cid, ctipo, crol, crec, cest, cmat, cfv, curg, cuid, cuem⟩ := c
  cases cfv with
  | none => exact ⟨curg, rfl⟩
  | some fv => exact ⟨decide ((fv : Int) - (t : Int) ≤ 7), rfl⟩

theorem countMovimientos_append (l1 l2 : List MovimientoCaso) (cid : Nat) :
    countMovimientos (l1 ++ l2) cid
      = countMovimientos l1 cid + countMovimientos l2 cid := by
  simp [countMovimientos, List.filter_append]

theorem crear_alerta_automatica_movimientos (now : Nat) (c : Caso) (created : Bool)
    (db : DB) : (crear_alerta_automatica now c created db).movimientos = db.movimientos := by
  unfold crear_alerta_automatica
  cases created with
  | false => rfl
  | true =>
    cases hfv : c.fecha_vencimiento with
    | none => rfl
    | some fv =>
      by_cases hest : (c.estado == "EN_TRAMITACION") = true <;>
        by_cases hd : (fv : Int) - (dateOf now : Int) ≤ 7 <;>
          simp [hest, hd]

theorem crear_movimiento_inicial_alertas (now : Nat) (c : Caso) (created : Bool)
    (db : DB) : (crear_movimiento_inicial now c created db).alertas = db.alertas := by
  cases created <;> rfl

/-- C6: immediately after a case is created, exactly one movement for
it exists, flagged important and describing the creation (type display
plus subject-matter truncated to 100 characters); and when the case is
in process with a due date within 7 days of creation, exactly one
`VENCIMIENTO` alert for it exists as well, created by the
creation-time signal. -/
theorem c6_caso_creation_side_effects (db : DB) (c0 : Caso) (now : Nat)
    (hmov : ∀ m ∈ db.movimientos, m.caso_id ≠ c0.id)
    (hal : ∀ a ∈ db.alertas, a.caso_id ≠ c0.id) :
    countMovimientos (createCaso now db c0).movimientos c0.id = 1 ∧
    (∀ m ∈ (createCaso now db c0).movimientos, m.caso_id = c0.id →
      m.importante = true ∧
      m.descripcion = "Caso creado: " ++ tipoCasoDisplay c0.tipo ++ " - " ++
        (c0.materia.take 100)) ∧
    (∀ fv, c0.fecha_vencimiento = some fv → c0.estado = "EN_TRAMITACION" →
      (fv : Int) - (dateOf now : Int) ≤ 7 →
      countVenc (createCaso now db c0).alertas c0.id = 1) := by
  obtain ⟨u1, h1⟩ := Caso.save_eq_update (dateOf now) c0
  obtain ⟨u2, h2⟩ := marcar_urgente_eq_update (dateOf now) (Caso.save (dateOf now) c0)
  have hc2 : marcar_urgente_automatico (dateOf now) (Caso.save (dateOf now) c0)
      = { c0 with urgente := u2 } := by
    rw [h2, h1]
  simp only [createCaso, hc2]
  have hmovres : (crear_alerta_automatica now { c0 with urgente := u2 } true
      (crear_movimiento_inicial now { c0 with urgente := u2 } true
        { db with casos := db.casos ++ [{ c0 with urgente := u2 }] })).movimientos
      = db.movimientos ++
        [{ id := db.nextMovimientoId
           caso_id := c0.id
           fecha_movimiento := now
           descripcion := "Caso creado: " ++ tipoCasoDisplay c0.tipo ++ " - " ++
             (c0.materia.take 100)
           usuario_id := c0.usuario_responsable_id
           importante := true }] := by
    rw [crear_alerta_automatica_movimientos]
    rfl
  have hdbmov0 : countMovimientos db.movimientos c0.id = 0 := by
    unfold countMovimientos
    rw [List.filter_eq_nil_iff.2 ?hnil]
    · rfl
    case hnil =>
      intro m hm
      simp only [beq_iff_eq]
      exact hmov m hm
  refine ⟨?_, ?_, ?_⟩
  · rw [hmovres, countMovimientos_append, hdbmov0]
    simp [countMovimientos]
  · intro m hm hmid
    rw [hmovres] at hm
    rcases List.mem_append.1 hm with hold | hnew
    · exact absurd hmid (hmov m hold)
    · rw [List.mem_singleton.1 hnew]
      exact ⟨rfl, rfl⟩
  · intro fv hfv hest hdays
    have hfv2 : ({ c0 with urgente := u2 } : Caso).fecha_vencimiento = some fv := hfv
    have hest2 : (({ c0 with urgente := u2 } : Caso).estado == "EN_TRAMITACION") = true := by
      simp [hest]
    have halres : (crear_alerta_automatica now { c0 with urgente := u2 } true
        (crear_movimiento_inicial now { c0 with urgente := u2 } true
          { db with casos := db.casos ++ [{ c0 with urgente := u2 }] })).alertas
        = db.alertas ++
          [{ id := (crear_movimiento_inicial now { c0 with urgente := u2 } true
               { db with casos := db.casos ++ [{ c0 with urgente := u2 }] }).nextAlertaId
             caso_id := c0.id
             tipo := "VENCIMIENTO"
             mensaje := "El caso " ++ c0.rol ++ " vence en " ++
               toString ((fv : Int) - (dateOf now : Int)) ++
               " dias. Fecha de vencimiento: " ++ toString fv
             fecha_alerta := now + 60
             enviada := false
             fecha_envio := none
             leida := false
             enviar_email := true
             email_destinatario := c0.usuario_responsable_email
             fecha_creacion := now
             usuario_creador_id := c0.usuario_responsable_id }] := by
      unfold crear_alerta_automatica
      rw [hfv2]
      simp only [hest2, hdays, if_true, Bool.not_true, Bool.false_eq_true, if_false]
      rw [crear_movimiento_inicial_alertas]
    rw [halres, countVenc_append]
    have hdb0 : countVenc db.alertas c0.id = 0 := by
      unfold countVenc
      rw [List.filter_eq_nil_iff.2 ?hnil2]
      · rfl
      case hnil2 =>
        intro a ha
        simp only [Bool.and_eq_true, beq_iff_eq, not_and]
        intro hcontra
        exact absurd hcontra (hal a ha)
    rw [hdb0]
    simp [countVenc]

/-- C6 witness: creating an in-process case due on day 7 at minute 1000
(day 0) on an empty database leaves exactly one movement and exactly
one `VENCIMIENTO` alert for the case. -/
theorem c6_caso_creation_side_effects_witness :
    countMovimientos
      (createCaso 1000
        { casos := [], alertas := [], movimientos := [], nextAlertaId := 1,
          nextMovimientoId := 1 }
        (casoEj 1 1 "ana@example.com" (some 7) "EN_TRAMITACION")).movimientos 1 = 1 ∧
    countVenc
      (createCaso 1000
        { casos := [], alertas := [], movimientos := [], nextAlertaId := 1,
          nextMovimientoId := 1 }
        (casoEj 1 1 "ana@example.com" (some 7) "EN_TRAMITACION")).alertas 1 = 1 := by
  have h := c6_caso_creation_side_effects
    { casos := [], alertas := [], movimientos := [], nextAlertaId := 1,
      nextMovimientoId := 1 }
    (casoEj 1 1 "ana@example.com" (some 7) "EN_TRAMITACION") 1000
    (fun m hm => absurd hm (List.not_mem_nil m))
    (fun a ha => absurd ha (List.not_mem_nil a))
  exact ⟨h.1, h.2.2 7 rfl rfl (by decide)⟩
